import Mathlib

/-!
Verification of the gcallm calendar assistant against its design specification.

The repository's core logic (conflict-report parsing, response formatting,
two-phase interactive orchestration, screenshot discovery) is shallowly
embedded here.  Python strings are modelled as `List Char` (`PyStr`), Python's
substring operator `in` as `pyContains`, `str.startswith` as `pyStartsWith`,
`str.strip` as `pyStrip`, `str.split` on a newline as `pySplitLines`, and the
two regular-expression operations used by the code (`re.sub` deleting literal
alternatives and `re.search` for a calendar URL) as `pySubRemove` and
`findCalendarUrl`.  Effectful behaviour (agent requests, file-system access,
console output) is made explicit: requests become values in a trace, the
file system becomes an optional directory listing, and console output becomes
the string handed to the rendering layer.
-/

/-- Python strings, modelled as lists of characters. -/
abbrev PyStr := List Char

/-- Python's `s.startswith(p)` (`pyStartsWith s p`). -/
def pyStartsWith : PyStr → PyStr → Bool
  | _, [] => true
  | [], _ :: _ => false
  | c :: cs, p :: ps => c == p && pyStartsWith cs ps

/-- Python's substring test `pat in s` (`pyContains s pat`). -/
def pyContains : PyStr → PyStr → Bool
  | [], pat => pat.isEmpty
  | c :: rest, pat => pyStartsWith (c :: rest) pat || pyContains rest pat

/-- The characters Python's `str.strip` and the regex class `\s` treat as
whitespace (ASCII fragment). -/
def isPySpace (c : Char) : Bool :=
  c == ' ' || c == '\t' || c == '\n' || c == '\r' || c == '\x0b' || c == '\x0c'

/-- Python's `s.strip()`. -/
def pyStrip (s : PyStr) : PyStr :=
  ((s.dropWhile isPySpace).reverse.dropWhile isPySpace).reverse

/-- Python's `s.split("\n")`. -/
def pySplitLines : PyStr → List PyStr
  | [] => [[]]
  | c :: rest =>
    let r := pySplitLines rest
    if c == '\n' then [] :: r
    else
      match r with
      | [] => [[c]]
      | h :: t => (c :: h) :: t

/- ### Conflict report parsing (src/gcallm/conflicts.py) -/

/-- The pause sentinel checked by `ConflictReport.from_response`. -/
def awaitMarker : PyStr := "<<AWAIT_USER_DECISION>>".data

/-- The important-conflict phrase checked by `ConflictReport.from_response`. -/
def importantPhrase : PyStr := "IMPORTANT CONFLICTS DETECTED".data

/-- The minor-conflict phrase checked by `ConflictReport.from_response`. -/
def minorPhrase : PyStr := "MINOR CONFLICTS".data

/-- `ConflictReport` dataclass from `gcallm/conflicts.py`. -/
structure ConflictReport where
  has_conflicts : Bool
  is_important : Bool
  needs_user_decision : Bool
  phase1_response : PyStr
deriving Repr, DecidableEq

/-- `ConflictReport.from_response` from `gcallm/conflicts.py`: classify the
phase-1 reply by substring checks for the pause sentinel, the important
phrase and the minor phrase. -/
def ConflictReport.from_response (response : PyStr) : ConflictReport :=
  let needs_user_decision := pyContains response awaitMarker
  let has_important_conflicts :=
    pyContains response importantPhrase || needs_user_decision
  let has_minor_conflicts := pyContains response minorPhrase
  if has_important_conflicts then
    { has_conflicts := true, is_important := true, needs_user_decision := true,
      phase1_response := response }
  else if has_minor_conflicts then
    { has_conflicts := true, is_important := false, needs_user_decision := false,
      phase1_response := response }
  else
    { has_conflicts := false, is_important := false, needs_user_decision := false,
      phase1_response := response }

/-- The markdown-format important-conflict reply used by the repository's
`test_parse_important_conflicts` test. -/
def mdImportantReply : PyStr :=
  ("⚠️ CONFLICT CHECK: IMPORTANT CONFLICTS DETECTED\n\n" ++
   "Proposed event(s):\n- **Team Meeting**\n" ++
   "- **Date & Time:** Tomorrow at 2:00 PM - 3:00 PM\n\n" ++
   "Conflicts detected:\n- **Project Review** (2:00 PM - 2:30 PM)\n" ++
   "- **Client Call** (2:30 PM - 3:00 PM)\n\n<<AWAIT_USER_DECISION>>").data

/-- The tag-delimited (XML) important-conflict reply used by the repository's
`test_parse_xml_important_conflict` test. -/
def xmlImportantReply : PyStr :=
  ("<conflict_analysis>\n  <status>important_conflicts</status>\n" ++
   "  <proposed_events>\n    <event>\n      <title>Meeting with Jack</title>\n" ++
   "      <datetime>Friday, November 7, 2025 at 2:00 AM - 3:00 AM (EST)</datetime>\n" ++
   "    </event>\n  </proposed_events>\n  <conflicts>\n    <conflict>\n" ++
   "      <title>Existing Event</title>\n      <time>2:00 AM - 3:00 AM</time>\n" ++
   "    </conflict>\n  </conflicts>\n" ++
   "  <user_decision_required>true</user_decision_required>\n</conflict_analysis>").data

set_option maxRecDepth 8000 in
/-- C1 (code bug): the strict tag-delimited reply with status
`important_conflicts` and the markdown-marker reply for the same semantic
status do NOT yield identical `ConflictReport` values: `from_response` only
matches the uppercase markdown phrases, so the XML reply is classified as
no-conflicts while the markdown reply is classified as important.  The
repository's own tests `test_parse_xml_important_conflict` and
`test_parse_xml_minor_conflicts` assert the equivalence and fail on this
code. -/
theorem xml_markdown_reports_diverge :
    (ConflictReport.from_response xmlImportantReply).has_conflicts = false ∧
    (ConflictReport.from_response xmlImportantReply).is_important = false ∧
    (ConflictReport.from_response xmlImportantReply).needs_user_decision = false ∧
    (ConflictReport.from_response mdImportantReply).has_conflicts = true ∧
    (ConflictReport.from_response mdImportantReply).is_important = true ∧
    (ConflictReport.from_response mdImportantReply).needs_user_decision = true := by
  decide

/-- C2: any reply containing the pause sentinel `<<AWAIT_USER_DECISION>>` is
classified as needing a user decision, with conflicts present and important,
regardless of any other content of the reply. -/
theorem await_marker_forces_user_decision (s : PyStr)
    (h : pyContains s awaitMarker = true) :
    (ConflictReport.from_response s).needs_user_decision = true ∧
    (ConflictReport.from_response s).has_conflicts = true ∧
    (ConflictReport.from_response s).is_important = true := by
  simp [ConflictReport.from_response, h]

/-- Witness for C2 at the pause-marker reply from the repository's
`test_parse_await_marker` test. -/
theorem await_marker_forces_user_decision_witness :
    (ConflictReport.from_response
        "Some response with <<AWAIT_USER_DECISION>> marker".data).needs_user_decision
      = true ∧
    (ConflictReport.from_response
        "Some response with <<AWAIT_USER_DECISION>> marker".data).has_conflicts
      = true ∧
    (ConflictReport.from_response
        "Some response with <<AWAIT_USER_DECISION>> marker".data).is_important
      = true :=
  await_marker_forces_user_decision
    "Some response with <<AWAIT_USER_DECISION>> marker".data (by decide)

/-- C3: for every reply, the parsed report satisfies the invariant that
`needs_user_decision` implies both `has_conflicts` and `is_important`. -/
theorem conflict_report_invariant (s : PyStr)
    (h : (ConflictReport.from_response s).needs_user_decision = true) :
    (ConflictReport.from_response s).has_conflicts = true ∧
    (ConflictReport.from_response s).is_important = true := by
  dsimp only [ConflictReport.from_response] at h ⊢
  split at h
  · simp_all
  · split at h <;> simp_all

/-- Witness for C3 at a reply containing the important-conflicts phrase. -/
theorem conflict_report_invariant_witness :
    (ConflictReport.from_response
        "⚠️ CONFLICT CHECK: IMPORTANT CONFLICTS DETECTED".data).has_conflicts = true ∧
    (ConflictReport.from_response
        "⚠️ CONFLICT CHECK: IMPORTANT CONFLICTS DETECTED".data).is_important = true :=
  conflict_report_invariant
    "⚠️ CONFLICT CHECK: IMPORTANT CONFLICTS DETECTED".data (by decide)

/-- C4: `from_response` is a total function (the embedding returns a report
for every string), and any reply containing neither the pause sentinel nor
the important phrase nor the minor phrase degrades to the no-conflicts
classification, with the reply preserved (fail-open policy). -/
theorem from_response_fail_open (s : PyStr)
    (h1 : pyContains s awaitMarker = false)
    (h2 : pyContains s importantPhrase = false)
    (h3 : pyContains s minorPhrase = false) :
    ConflictReport.from_response s =
      { has_conflicts := false, is_important := false,
        needs_user_decision := false, phase1_response := s } := by
  simp [ConflictReport.from_response, h1, h2, h3]

/-- Witness for C4 at the no-conflicts reply from the repository's
`test_parse_no_conflicts` test. -/
theorem from_response_fail_open_witness :
    ConflictReport.from_response
        "📋 CONFLICT CHECK: NO CONFLICTS\n\nReady to proceed.".data =
      { has_conflicts := false, is_important := false,
        needs_user_decision := false,
        phase1_response := "📋 CONFLICT CHECK: NO CONFLICTS\n\nReady to proceed.".data } :=
  from_response_fail_open "📋 CONFLICT CHECK: NO CONFLICTS\n\nReady to proceed.".data
    (by decide) (by decide) (by decide)

/-- C5 counterexample: a reply containing the minor-conflict phrase and no
pause sentinel, but also the important-conflicts phrase, is classified as
important, contradicting the claim that every such reply yields
`is_important = false`. -/
theorem minor_with_important_counterexample :
    pyContains "IMPORTANT CONFLICTS DETECTED and MINOR CONFLICTS".data minorPhrase
      = true ∧
    pyContains "IMPORTANT CONFLICTS DETECTED and MINOR CONFLICTS".data awaitMarker
      = false ∧
    (ConflictReport.from_response
        "IMPORTANT CONFLICTS DETECTED and MINOR CONFLICTS".data).is_important
      = true ∧
    (ConflictReport.from_response
        "IMPORTANT CONFLICTS DETECTED and MINOR CONFLICTS".data).needs_user_decision
      = true := by
  decide

/-- C5 (amended): a reply containing the minor-conflict phrase and neither
the pause sentinel nor the important-conflicts phrase yields conflicts that
are present but not important and need no user decision. -/
theorem minor_without_important_yields_minor (s : PyStr)
    (hmin : pyContains s minorPhrase = true)
    (hawait : pyContains s awaitMarker = false)
    (himp : pyContains s importantPhrase = false) :
    (ConflictReport.from_response s).has_conflicts = true ∧
    (ConflictReport.from_response s).is_important = false ∧
    (ConflictReport.from_response s).needs_user_decision = false := by
  simp [ConflictReport.from_response, hmin, hawait, himp]

/-- Witness for the amended C5 at the minor-conflicts reply from the
repository's `test_parse_minor_conflicts` test. -/
theorem minor_without_important_yields_minor_witness :
    (ConflictReport.from_response
        "📋 CONFLICT CHECK: MINOR CONFLICTS\n\nProceeding as requested.".data).has_conflicts
      = true ∧
    (ConflictReport.from_response
        "📋 CONFLICT CHECK: MINOR CONFLICTS\n\nProceeding as requested.".data).is_important
      = false ∧
    (ConflictReport.from_response
        "📋 CONFLICT CHECK: MINOR CONFLICTS\n\nProceeding as requested.".data).needs_user_decision
      = false :=
  minor_without_important_yields_minor
    "📋 CONFLICT CHECK: MINOR CONFLICTS\n\nProceeding as requested.".data
    (by decide) (by decide) (by decide)

/- ### Response formatting (src/gcallm/formatter.py) -/

/-- The literal head of the calendar-URL regular expression
`https://www\.google\.com/calendar[^\s\)]*` in `format_event_response`. -/
def calendarUrlLead : PyStr := "https://www.google.com/calendar".data

/-- A character ending the URL match: the regex class `[^\s\)]` stops at
whitespace or a closing parenthesis. -/
def isUrlStop (c : Char) : Bool := isPySpace c || c == ')'

/-- `re.search` for the calendar-URL pattern: the first occurrence of the
literal head, extended greedily over non-stop characters. -/
def findCalendarUrl : PyStr → Option PyStr
  | [] => none
  | c :: rest =>
    if pyStartsWith (c :: rest) calendarUrlLead then
      some (calendarUrlLead ++
        ((c :: rest).drop calendarUrlLead.length).takeWhile (fun ch => !isUrlStop ch))
    else findCalendarUrl rest

/-- One left-to-right pass deleting every occurrence of the given literal
alternatives (Python `re.sub(p1|p2, "", s)` / `str.replace(p, "")`), with
explicit fuel.  Each step consumes at least one character, so fuel equal to
the length of the string (as supplied by `pySubRemove`) is always enough. -/
def removeAll (pats : List PyStr) : Nat → PyStr → PyStr
  | _, [] => []
  | 0, s => s
  | fuel + 1, c :: rest =>
    match pats.find? (fun p => !p.isEmpty && pyStartsWith (c :: rest) p) with
    | some p => removeAll pats fuel ((c :: rest).drop p.length)
    | none => c :: removeAll pats fuel rest

/-- Delete every occurrence of the literal alternatives from `s`. -/
def pySubRemove (pats : List PyStr) (s : PyStr) : PyStr := removeAll pats s.length s

/-- The event record built incrementally by `format_event_response`
(`current_event` dictionary in the source). -/
structure ExtractedEvent where
  title : Option PyStr := none
  datetime : Option PyStr := none
  description : Option PyStr := none
  link : Option PyStr := none
deriving Repr, DecidableEq

/-- Python truthiness of `current_event.get(key)`: absent or empty is falsy. -/
def pyTruthy : Option PyStr → Bool
  | none => false
  | some s => !s.isEmpty

/-- The body of `format_event_response`'s line loop: strip the line, skip
blank and first-person filler lines, classify bolded bullet items into the
datetime / description / link / title fields, and pick up bare calendar
URLs on non-bullet lines. -/
def processLine (ev : ExtractedEvent) (rawLine : PyStr) : ExtractedEvent :=
  let line := pyStrip rawLine
  if line.isEmpty || pyStartsWith line "I\x27ll".data ||
      pyStartsWith line "Now I\x27ll".data then ev
  else if pyStartsWith line "- **".data then
    let content := pyStrip (line.drop 2)
    if pyContains content "Date & Time:".data ||
        pyContains content "**Date & Time:**".data then
      let d := pyStrip (pySubRemove ["**Date & Time:**".data, "**".data] content)
      { ev with datetime := some d }
    else if pyContains content "Description:".data then
      let d := pyStrip (pySubRemove ["**Description:**".data, "**".data] content)
      { ev with description := some d }
    else if pyContains content "Event Link:".data ||
        pyContains content "Link:".data then
      match findCalendarUrl content with
      | some u => { ev with link := some u }
      | none => ev
    else if pyContains content "Every day".data || pyContains content "at".data then
      let d := pyStrip (pySubRemove ["**".data] content)
      { ev with datetime := some d }
    else
      let t := pyStrip (pySubRemove ["**".data] content)
      if !t.isEmpty && !(pyTruthy ev.title) then { ev with title := some t } else ev
  else if pyContains line calendarUrlLead then
    match findCalendarUrl line with
    | some u => { ev with link := some u }
    | none => ev
  else ev

/-- Python truthiness of the `current_event` dictionary: it is non-empty
exactly when some field has been assigned. -/
def eventNonempty (ev : ExtractedEvent) : Bool :=
  ev.title.isSome || ev.datetime.isSome || ev.description.isSome || ev.link.isSome

/-- A conditionally present display row (`if key in event: table.add_row`). -/
def optRow (f : PyStr → PyStr) : Option PyStr → PyStr
  | some v => f v
  | none => []

/-- The text placed in the per-event display table by
`format_event_response` (labels, cell contents including Rich markup, and
the panel title), concatenated in print order. -/
def renderEventRows (ev : ExtractedEvent) : PyStr :=
  optRow (fun t => "Event:".data ++ "[bold green]".data ++ t ++ "[/bold green]".data)
    ev.title ++
  optRow (fun d => "When:".data ++ d) ev.datetime ++
  optRow (fun d => "Details:".data ++ d) ev.description ++
  optRow (fun u => "Link:".data ++ "[link=".data ++ u ++ "]".data ++ u ++ "[/link]".data)
    ev.link ++
  "✅ Event Created Successfully".data

/-- The warning glyph `⚠️` (warning sign followed by a variation selector,
two characters). -/
def warnGlyph : PyStr := "⚠️".data

/-- ASCII lowering, modelling `str.lower()` for the characters relevant to
the `"conflict"` check. -/
def pyLower (s : PyStr) : PyStr := s.map Char.toLower

/-- `"\n".join`-style concatenation with a separator. -/
def joinWith (sep : PyStr) : List PyStr → PyStr
  | [] => []
  | [x] => x
  | x :: y :: rest => x ++ sep ++ joinWith sep (y :: rest)

/-- One step of the warning-line scan in `format_event_response`: once a
line containing the warning glyph or `Note:` is seen, capture cleaned
non-empty lines that do not start with the checkmark. -/
def warnStep (st : Bool × List PyStr) (line : PyStr) : Bool × List PyStr :=
  let capture := if pyContains line warnGlyph || pyContains line "Note:".data
    then true else st.1
  if capture then
    let clean := pyStrip (pySubRemove ["**Note:**".data]
      (pySubRemove [warnGlyph] (pyStrip line)))
    if !clean.isEmpty && !pyStartsWith clean "✅".data then (capture, st.2 ++ [clean])
    else (capture, st.2)
  else (capture, st.2)

/-- The secondary warning/note panel of `format_event_response`: shown when
the reply contains the warning glyph, `Note:`, or (lowercased) `conflict`,
holding up to five captured warning lines. -/
def warningBlock (response : PyStr) (lines : List PyStr) : PyStr :=
  if pyContains response warnGlyph || pyContains response "Note:".data ||
      pyContains (pyLower response) "conflict".data then
    let wl := (lines.foldl warnStep (false, [])).2
    if !wl.isEmpty then joinWith "\n".data (wl.take 5) ++ "⚠️  Note".data else []
  else []

/-- The result of `format_event_response`: the event records extracted from
the reply (empty on the markdown fallback path) together with the text
handed to the console (for the fallback path, the reply itself rendered as
markdown). -/
structure FormattedOutput where
  events : List ExtractedEvent
  rendered : PyStr
deriving Repr, DecidableEq

/-- `format_event_response` from `gcallm/formatter.py`: when the reply has a
success indicator (checkmark or `Created`) and event fields can be
extracted, render the event table and warning block; otherwise fall back to
rendering the reply as markdown. -/
def format_event_response (response : PyStr) : FormattedOutput :=
  let lines := pySplitLines (pyStrip response)
  if pyContains response "✅".data || pyContains response "Created".data then
    let ev := lines.foldl processLine {}
    if eventNonempty ev then
      { events := [ev], rendered := renderEventRows ev ++ warningBlock response lines }
    else
      { events := [], rendered := response }
  else
    { events := [], rendered := response }

/-- C10: every branch of `from_response` stores the full input reply
verbatim in `phase1_response`, so the report shown to the user always
carries the unaltered phase-1 text. -/
theorem phase1_response_preserved (s : PyStr) :
    (ConflictReport.from_response s).phase1_response = s := by
  dsimp only [ConflictReport.from_response]
  split
  · rfl
  · split <;> rfl

/- ### Substring lemmas for the display contract -/

theorem pyStartsWith_extend (p s t : PyStr) (h : pyStartsWith s p = true) :
    pyStartsWith (s ++ t) p = true := by
  induction p generalizing s with
  | nil => simp [pyStartsWith]
  | cons pc ps ih =>
    cases s with
    | nil => simp [pyStartsWith] at h
    | cons c cs =>
      simp [pyStartsWith] at h ⊢
      exact ⟨h.1, ih cs h.2⟩

theorem pyStartsWith_append_self (p t : PyStr) : pyStartsWith (p ++ t) p = true := by
  induction p with
  | nil => simp [pyStartsWith]
  | cons c cs ih => simp [pyStartsWith, ih]

theorem pyContains_pat_nil (s : PyStr) : pyContains s [] = true := by
  cases s <;> simp [pyContains, pyStartsWith]

theorem pyContains_append_right (s t pat : PyStr) (h : pyContains t pat = true) :
    pyContains (s ++ t) pat = true := by
  induction s with
  | nil => simpa using h
  | cons c cs ih => simp [pyContains, ih]

theorem pyContains_append_left (s t pat : PyStr) (h : pyContains s pat = true) :
    pyContains (s ++ t) pat = true := by
  induction s with
  | nil =>
    have hpat : pat = [] := by
      cases pat with
      | nil => rfl
      | cons _ _ => simp [pyContains] at h
    subst hpat
    exact pyContains_pat_nil t
  | cons c cs ih =>
    simp only [pyContains, Bool.or_eq_true, List.cons_append] at h ⊢
    rcases h with h | h
    · exact Or.inl (pyStartsWith_extend pat (c :: cs) t h)
    · exact Or.inr (ih h)

theorem pyContains_self_append (pat b : PyStr) : pyContains (pat ++ b) pat = true := by
  cases pat with
  | nil => exact pyContains_pat_nil b
  | cons c cs =>
    have h := pyStartsWith_append_self (c :: cs) b
    simp only [List.cons_append] at h
    simp [pyContains, h]

/-- If the extracted event carries a link, the per-event display rows
contain that link in full. -/
theorem renderEventRows_link (ev : ExtractedEvent) (url : PyStr)
    (h : ev.link = some url) :
    pyContains (renderEventRows ev) url = true := by
  unfold renderEventRows
  rw [h]
  simp only [optRow, List.append_assoc]
  apply pyContains_append_right
  apply pyContains_append_right
  apply pyContains_append_right
  apply pyContains_append_right
  apply pyContains_append_right
  exact pyContains_self_append url _

/-- C7: whenever `format_event_response` extracts a link value from a reply,
the rendered output contains that URL in full, character for character (the
full URL is embedded verbatim in the link row, with no ellipsis
truncation), for URLs of arbitrary length. -/
theorem link_rendered_unabridged (response : PyStr) (ev : ExtractedEvent)
    (url : PyStr) (hev : ev ∈ (format_event_response response).events)
    (hlink : ev.link = some url) :
    pyContains (format_event_response response).rendered url = true := by
  dsimp only [format_event_response] at hev ⊢
  by_cases hs :
      (pyContains response "✅".data || pyContains response "Created".data) = true
  · rw [if_pos hs] at hev ⊢
    by_cases hne :
        eventNonempty ((pySplitLines (pyStrip response)).foldl processLine {}) = true
    · rw [if_pos hne] at hev ⊢
      have hev' : ev = (pySplitLines (pyStrip response)).foldl processLine {} := by
        simpa using hev
      subst hev'
      exact pyContains_append_left _ _ _ (renderEventRows_link _ _ hlink)
    · rw [if_neg hne] at hev
      simp at hev
  · rw [if_neg hs] at hev
    simp at hev

/-- The single-event success reply used to witness C7 (checkmark line, a
bolded title bullet, and an event-link bullet). -/
def linkWitnessReply : PyStr :=
  ("✅ Created 1 event:\n\n- **Team Meeting**\n" ++
   "- **Event Link:** https://www.google.com/calendar/event?eid=abc123").data

/-- The calendar URL extracted from `linkWitnessReply`. -/
def linkWitnessUrl : PyStr := "https://www.google.com/calendar/event?eid=abc123".data

set_option maxRecDepth 20000 in
/-- Witness for C7: on the concrete success reply, the extracted link is
contained in full in the rendered output. -/
theorem link_rendered_unabridged_witness :
    pyContains (format_event_response linkWitnessReply).rendered linkWitnessUrl
      = true :=
  link_rendered_unabridged linkWitnessReply
    { title := some "Team Meeting".data, link := some linkWitnessUrl }
    linkWitnessUrl (by decide) (by decide)

/- ### Tool-result capture and the CLI display pipeline
     (src/gcallm/agent.py, src/gcallm/cli.py) -/

/-- A captured calendar tool-result record (the event dict produced by the
MCP `create-event` tool), as consumed by `format_tool_results`. -/
structure ToolResult where
  event_id : Option PyStr := none
  summary : Option PyStr := none
  start : Option PyStr := none
  endTime : Option PyStr := none
  location : Option PyStr := none
  htmlLink : Option PyStr := none
deriving Repr, DecidableEq

/-- The dict returned by `CalendarAgent.run` / `process_events`: the reply
text together with the captured tool results for the request. -/
structure AgentResult where
  text : PyStr
  tool_results : List ToolResult
deriving Repr, DecidableEq

/-- The final step of `create_events` in `gcallm/agent.py`: the dict result
of the agent run is collapsed to its `text` field before being returned to
the CLI (`result.get("text", result)`), dropping the captured tool
results. -/
def create_events_return (r : AgentResult) : PyStr := r.text

/-- The display step of the CLI commands in `gcallm/cli.py`: the value
returned by `create_events` is always handed to `format_event_response`;
no code path invokes `format_tool_results`. -/
def cli_display_pipeline (r : AgentResult) : FormattedOutput :=
  format_event_response (create_events_return r)

/-- The agent result used by the repository's
`test_cli_uses_tool_results_when_available` test: a plain-text reply
alongside one structured tool-result record. -/
def toolResultAgentResult : AgentResult :=
  { text := "Event created successfully".data,
    tool_results := [
      { event_id := some "test123".data,
        summary := some "Test Event".data,
        start := some "2025-11-06T14:00:00-05:00".data,
        endTime := some "2025-11-06T15:00:00-05:00".data,
        htmlLink := some "https://www.google.com/calendar/event?eid=test123".data }] }

set_option maxRecDepth 8000 in
/-- C6 (code bug): with a structured tool-result record available, the
rendered output still comes from the text-parsing path and does not contain
the record's summary: `create_events` drops `tool_results` on return and
the CLI always calls `format_event_response`; `format_tool_results` has no
caller.  The repository's own test
`test_cli_uses_tool_results_when_available` asserts the summary appears in
the output and fails on this code. -/
theorem tool_results_ignored_by_pipeline :
    toolResultAgentResult.tool_results.length = 1 ∧
    toolResultAgentResult.tool_results.map ToolResult.summary
      = [some "Test Event".data] ∧
    pyContains (cli_display_pipeline toolResultAgentResult).rendered
      "Test Event".data = false := by
  decide

/- ### Two-phase orchestrator (src/gcallm/agent.py, src/gcallm/interaction.py) -/

/-- A request issued to the external agent, with its prompt text.  The two
phases of the interactive workflow issue distinct requests. -/
inductive AgentRequest
  | phase1 (prompt : PyStr)
  | phase2 (prompt : PyStr)
deriving Repr, DecidableEq

/-- Whether a request is a phase-2 (creation) request. -/
def isPhase2 : AgentRequest → Bool
  | AgentRequest.phase1 _ => false
  | AgentRequest.phase2 _ => true

/-- The ordered trace of agent requests issued by one interactive run,
together with the string the run returns. -/
structure InteractiveRun where
  requests : List AgentRequest
  result : PyStr
deriving Repr, DecidableEq

/-- The cancellation message returned by `process_events_interactive` when
the user declines. -/
def cancellationMessage : PyStr :=
  "Event creation cancelled by user due to scheduling conflicts.".data

/-- `ask_user_to_proceed` from `gcallm/interaction.py`: auto-proceed when no
user decision is needed, otherwise return the user's yes/no answer (the
`userAccepts` oracle stands for the interactive confirmation prompt) with
the corresponding context message. -/
def ask_user_to_proceed (report : ConflictReport) (userAccepts : Bool) :
    Bool × Option PyStr :=
  if !report.needs_user_decision then (true, none)
  else if !userAccepts then
    (false, some "User decided not to create event due to conflicts".data)
  else
    (true, some "User confirmed: proceed with event creation despite conflicts".data)

/-- `format_phase2_prompt` from `gcallm/interaction.py`. -/
def format_phase2_prompt (user_decision original_input : PyStr)
    (screenshot_paths : List PyStr) : PyStr :=
  user_decision ++ "\n\n".data ++ "Original request: ".data ++ original_input ++
  "\n".data ++
  (if screenshot_paths.isEmpty then [] else
    "\nScreenshots (".data ++ (toString screenshot_paths.length).data ++
    "):\n".data ++
    (screenshot_paths.map (fun p => "- ".data ++ p ++ "\n".data)).flatten) ++
  "\nPlease proceed with creating the event(s) now.".data

/-- `CalendarAgent.process_events_interactive` from `gcallm/agent.py`, with
the effectful agent exchanges made explicit: `phase1Reply` and `phase2Reply`
are the agent's replies to the two requests, and `userAccepts` is the
user's answer at the confirmation prompt.  Phase 1 runs first; its reply is
parsed into a `ConflictReport`; if the report needs a user decision and the
user declines, the run returns the cancellation message without issuing a
phase-2 request; otherwise a single phase-2 request delivers the decision
message and the original input, and its reply is returned. -/
def process_events_interactive (user_input : PyStr) (screenshot_paths : List PyStr)
    (phase1Reply phase2Reply : PyStr) (userAccepts : Bool) : InteractiveRun :=
  let report := ConflictReport.from_response phase1Reply
  let phase1Req := AgentRequest.phase1 user_input
  if report.needs_user_decision &&
      !(ask_user_to_proceed report userAccepts).1 then
    { requests := [phase1Req], result := cancellationMessage }
  else
    let decisionMsg :=
      if report.needs_user_decision then
        "User confirmed: proceed with event creation despite conflicts".data
      else "No conflicts detected, proceeding with creation".data
    let phase2Prompt := format_phase2_prompt decisionMsg user_input screenshot_paths
    { requests := [phase1Req, AgentRequest.phase2 phase2Prompt],
      result := phase2Reply }

/-- C8: in every interactive run, (a) if the phase-1 report needs a user
decision and the user declines, the run returns the cancellation message
and issues no phase-2 request; (b) at most one phase-2 request is ever
issued; and (c) any phase-2 request is the second and last request, issued
strictly after the phase-1 request, and only when no decision was needed or
the user explicitly accepted. -/
theorem interactive_phase2_gating (user_input : PyStr)
    (screenshot_paths : List PyStr) (phase1Reply phase2Reply : PyStr)
    (userAccepts : Bool) :
    (((ConflictReport.from_response phase1Reply).needs_user_decision = true) →
      userAccepts = false →
      (process_events_interactive user_input screenshot_paths phase1Reply
          phase2Reply userAccepts).result = cancellationMessage ∧
      ((process_events_interactive user_input screenshot_paths phase1Reply
          phase2Reply userAccepts).requests.filter isPhase2) = []) ∧
    ((process_events_interactive user_input screenshot_paths phase1Reply
        phase2Reply userAccepts).requests.filter isPhase2).length ≤ 1 ∧
    (∀ req ∈ (process_events_interactive user_input screenshot_paths phase1Reply
        phase2Reply userAccepts).requests, isPhase2 req = true →
      (process_events_interactive user_input screenshot_paths phase1Reply
          phase2Reply userAccepts).requests
        = [AgentRequest.phase1 user_input, req] ∧
      ((ConflictReport.from_response phase1Reply).needs_user_decision = false ∨
        userAccepts = true)) := by
  dsimp only [process_events_interactive]
  by_cases hn : (ConflictReport.from_response phase1Reply).needs_user_decision = true
  · cases ha : userAccepts with
    | false =>
      simp [hn, ha, ask_user_to_proceed, isPhase2, List.filter]
    | true =>
      simp [hn, ha, ask_user_to_proceed, isPhase2, List.filter]
  · have hn' : (ConflictReport.from_response phase1Reply).needs_user_decision
        = false := by
      cases hval : (ConflictReport.from_response phase1Reply).needs_user_decision
      · rfl
      · exact absurd hval hn
    simp [hn', isPhase2, List.filter]

/-- The phase-1 reply used to witness C8's declined-run clause. -/
def declinedPhase1Reply : PyStr :=
  "⚠️ IMPORTANT CONFLICTS DETECTED\n\n<<AWAIT_USER_DECISION>>".data

/-- Witness for C8: on a concrete important-conflict phase-1 reply with the
user declining, the run returns the cancellation message and issues no
phase-2 request. -/
theorem interactive_phase2_gating_witness :
    (process_events_interactive "Team sync tomorrow 2pm".data []
        declinedPhase1Reply "unused".data false).result = cancellationMessage ∧
    ((process_events_interactive "Team sync tomorrow 2pm".data []
        declinedPhase1Reply "unused".data false).requests.filter isPhase2) = [] :=
  (interactive_phase2_gating "Team sync tomorrow 2pm".data []
      declinedPhase1Reply "unused".data false).1 (by decide) rfl

/- ### Screenshot discovery (src/gcallm/screenshot.py) -/

/-- A file in the searched directory: its name and modification time. -/
structure FileEntry where
  name : PyStr
  mtime : Nat
deriving Repr, DecidableEq

/-- The two exceptions `find_recent_screenshots` can raise. -/
inductive ScreenshotError
  | fileNotFoundError (msg : PyStr)
  | valueError (msg : PyStr)
deriving Repr, DecidableEq

/-- The stems of the locale-specific glob patterns `stem*.png` searched by
`find_recent_screenshots` (English, Spanish, French, German). -/
def screenshotPatternStems : List PyStr :=
  ["Screenshot".data, "Captura de pantalla".data,
   "Capture d\x27écran".data, "Bildschirmfoto".data]

/-- Python's `s.endswith(p)`. -/
def pyEndsWith (s p : PyStr) : Bool := pyStartsWith s.reverse p.reverse

/-- Whether a file name matches the glob `stem*.png`: it starts with the
stem and the remainder ends with `.png`. -/
def matchesScreenshotPattern (stem nm : PyStr) : Bool :=
  pyStartsWith nm stem && pyEndsWith (nm.drop stem.length) ".png".data

/-- Whether a file name matches any locale-specific screenshot pattern. -/
def matchesAnyScreenshotPattern (nm : PyStr) : Bool :=
  screenshotPatternStems.any (fun stem => matchesScreenshotPattern stem nm)

/-- The `screenshots` accumulation loop of `find_recent_screenshots`: for
each pattern in order, extend the list with the directory entries matching
that pattern. -/
def collectScreenshots (entries : List FileEntry) : List FileEntry :=
  screenshotPatternStems.foldl
    (fun acc stem =>
      acc ++ entries.filter (fun e => matchesScreenshotPattern stem e.name)) []

/-- Stable insertion into a list sorted by modification time, newest first
(ties keep their existing order, as Python's stable sort does). -/
def insertDesc (x : FileEntry) : List FileEntry → List FileEntry
  | [] => [x]
  | y :: ys => if x.mtime < y.mtime then y :: insertDesc x ys else x :: y :: ys

/-- Stable sort by modification time, newest first
(`screenshots.sort(key=mtime, reverse=True)`). -/
def sortDesc : List FileEntry → List FileEntry
  | [] => []
  | x :: xs => insertDesc x (sortDesc xs)

/-- The head of the fallback-instruction text inside the `ValueError`
message of `find_recent_screenshots`. -/
def fallbackInstructionHead : PyStr :=
  ("CLAUDE_FALLBACK_INSTRUCTION: The screenshot pattern matching failed. " ++
   "Please manually list all .png files in ").data

/-- The `ValueError` message of `find_recent_screenshots` when no entry
matches any screenshot pattern. -/
def noScreenshotsMessage (dirName : PyStr) : PyStr :=
  "No screenshots found in ".data ++ dirName ++ ". ".data ++
  fallbackInstructionHead ++ dirName ++
  (", sort by modification time, " ++
   "and select the most recent file(s) that appear to be screenshots. " ++
   "Use those paths to read the images and extract event information.").data

/-- `find_recent_screenshots` from `gcallm/screenshot.py`, with the file
system made explicit: `listing` is the directory's contents, or `none` when
the directory does not exist.  Raising is modelled with `Except.error`. -/
def find_recent_screenshots (count : Nat) (dirName : PyStr)
    (listing : Option (List FileEntry)) : Except ScreenshotError (List PyStr) :=
  match listing with
  | none =>
    Except.error (ScreenshotError.fileNotFoundError
      ("Directory not found: ".data ++ dirName))
  | some entries =>
    let screenshots := collectScreenshots entries
    if screenshots.isEmpty then
      Except.error (ScreenshotError.valueError (noScreenshotsMessage dirName))
    else
      Except.ok (((sortDesc screenshots).take count).map FileEntry.name)

theorem mem_insertDesc (x : FileEntry) (l : List FileEntry) (a : FileEntry) :
    a ∈ insertDesc x l ↔ a = x ∨ a ∈ l := by
  induction l with
  | nil => simp [insertDesc]
  | cons y ys ih =>
    simp only [insertDesc]
    split
    · simp only [List.mem_cons, ih]
      tauto
    · simp only [List.mem_cons]

theorem mem_sortDesc (l : List FileEntry) (a : FileEntry) :
    a ∈ sortDesc l ↔ a ∈ l := by
  induction l with
  | nil => simp [sortDesc]
  | cons x xs ih => simp [sortDesc, mem_insertDesc, ih]

theorem pairwise_insertDesc (x : FileEntry) (l : List FileEntry)
    (h : l.Pairwise (fun a b => b.mtime ≤ a.mtime)) :
    (insertDesc x l).Pairwise (fun a b => b.mtime ≤ a.mtime) := by
  induction l with
  | nil => simp [insertDesc]
  | cons y ys ih =>
    rw [List.pairwise_cons] at h
    simp only [insertDesc]
    split
    · rw [List.pairwise_cons]
      refine ⟨fun b hb => ?_, ih h.2⟩
      rcases (mem_insertDesc x ys b).1 hb with rfl | hb'
      · omega
      · exact h.1 b hb'
    · rw [List.pairwise_cons]
      refine ⟨fun b hb => ?_, List.pairwise_cons.2 h⟩
      rcases List.mem_cons.1 hb with rfl | hb'
      · omega
      · have := h.1 b hb'
        omega

theorem pairwise_sortDesc (l : List FileEntry) :
    (sortDesc l).Pairwise (fun a b => b.mtime ≤ a.mtime) := by
  induction l with
  | nil => simp [sortDesc]
  | cons x xs ih => exact pairwise_insertDesc x (sortDesc xs) ih

theorem mem_collectScreenshots_iff (entries : List FileEntry) (e : FileEntry) :
    e ∈ collectScreenshots entries ↔
      e ∈ entries ∧ matchesAnyScreenshotPattern e.name = true := by
  simp only [collectScreenshots, screenshotPatternStems, List.foldl,
    List.nil_append, List.mem_append, List.mem_filter,
    matchesAnyScreenshotPattern, List.any_cons, List.any_nil,
    Bool.or_eq_true, Bool.or_false]
  tauto

theorem collectScreenshots_eq_nil_iff (entries : List FileEntry) :
    collectScreenshots entries = [] ↔
      ∀ e ∈ entries, matchesAnyScreenshotPattern e.name = false := by
  rw [List.eq_nil_iff_forall_not_mem]
  constructor
  · intro h e he
    by_contra hx
    rw [Bool.not_eq_false] at hx
    exact h e ((mem_collectScreenshots_iff entries e).2 ⟨he, hx⟩)
  · intro h e hmem
    obtain ⟨he, hmt⟩ := (mem_collectScreenshots_iff entries e).1 hmem
    rw [h e he] at hmt
    cases hmt

/-- C9: `find_recent_screenshots` errors with `FileNotFoundError` exactly
when the directory does not exist; errors with a `ValueError` carrying the
fallback instruction exactly when the directory exists but no entry matches
any locale-specific screenshot pattern; and otherwise returns at most
`count` names of matching entries, sorted by modification time newest
first. -/
theorem find_recent_screenshots_spec (count : Nat) (dirName : PyStr)
    (listing : Option (List FileEntry)) :
    ((∃ m, find_recent_screenshots count dirName listing
        = Except.error (ScreenshotError.fileNotFoundError m)) ↔ listing = none) ∧
    (∀ entries, listing = some entries →
      ((∃ m, find_recent_screenshots count dirName listing
          = Except.error (ScreenshotError.valueError m) ∧
          pyContains m "CLAUDE_FALLBACK_INSTRUCTION".data = true) ↔
        ∀ e ∈ entries, matchesAnyScreenshotPattern e.name = false)) ∧
    (∀ entries l, listing = some entries →
      find_recent_screenshots count dirName listing = Except.ok l →
      l.length ≤ count ∧
      ∃ es : List FileEntry, l = es.map FileEntry.name ∧
        es.Pairwise (fun a b => b.mtime ≤ a.mtime) ∧
        ∀ e ∈ es, e ∈ entries ∧ matchesAnyScreenshotPattern e.name = true) := by
  refine ⟨?_, ?_, ?_⟩
  · cases listing with
    | none => simp [find_recent_screenshots]
    | some entries =>
      simp only [find_recent_screenshots]
      constructor
      · rintro ⟨m, hm⟩
        split at hm <;> simp at hm
      · intro h
        cases h
  · intro entries he
    subst he
    by_cases hemp : (collectScreenshots entries).isEmpty = true
    · have hnil : collectScreenshots entries = [] := List.isEmpty_iff.1 hemp
      constructor
      · intro _
        exact (collectScreenshots_eq_nil_iff entries).1 hnil
      · intro _
        refine ⟨noScreenshotsMessage dirName, ?_, ?_⟩
        · simp only [find_recent_screenshots]
          rw [if_pos hemp]
        · have hc : pyContains fallbackInstructionHead
              "CLAUDE_FALLBACK_INSTRUCTION".data = true := by decide
          simp only [noScreenshotsMessage, List.append_assoc]
          apply pyContains_append_right
          apply pyContains_append_right
          apply pyContains_append_right
          exact pyContains_append_left _ _ _ hc
    · constructor
      · rintro ⟨m, hm, _⟩
        simp only [find_recent_screenshots] at hm
        rw [if_neg hemp] at hm
        cases hm
      · intro hall
        exact absurd (List.isEmpty_iff.2
          ((collectScreenshots_eq_nil_iff entries).2 hall)) hemp
  · intro entries l he hok
    subst he
    simp only [find_recent_screenshots] at hok
    by_cases hemp : (collectScreenshots entries).isEmpty = true
    · rw [if_pos hemp] at hok
      cases hok
    · rw [if_neg hemp] at hok
      injection hok with hok'
      subst hok'
      constructor
      · rw [List.length_map, List.length_take]
        exact Nat.min_le_left _ _
      · refine ⟨(sortDesc (collectScreenshots entries)).take count, rfl, ?_, ?_⟩
        · exact (pairwise_sortDesc _).sublist (List.take_sublist _ _)
        · intro e hmem
          have h1 : e ∈ sortDesc (collectScreenshots entries) :=
            List.take_subset _ _ hmem
          have h2 : e ∈ collectScreenshots entries := (mem_sortDesc _ _).1 h1
          exact (mem_collectScreenshots_iff entries e).1 h2

/-- A concrete directory listing used to witness C9: two English-locale and
one German-locale screenshot among other files. -/
def demoDesktop : List FileEntry :=
  [{ name := "notes.txt".data, mtime := 50 },
   { name := "Screenshot 2025-10-01.png".data, mtime := 10 },
   { name := "Bildschirmfoto 2025.png".data, mtime := 30 },
   { name := "Screenshot 2025-10-05.png".data, mtime := 20 }]

set_option maxRecDepth 8000 in
/-- Witness for C9: on the concrete listing, the two newest matching
screenshots come back, newest first, and the length bound and matching
conditions hold. -/
theorem find_recent_screenshots_spec_witness :
    (["Bildschirmfoto 2025.png".data,
      "Screenshot 2025-10-05.png".data] : List PyStr).length ≤ 2 ∧
    ∃ es : List FileEntry,
      (["Bildschirmfoto 2025.png".data,
        "Screenshot 2025-10-05.png".data] : List PyStr) = es.map FileEntry.name ∧
      es.Pairwise (fun a b => b.mtime ≤ a.mtime) ∧
      ∀ e ∈ es, e ∈ demoDesktop ∧ matchesAnyScreenshotPattern e.name = true :=
  (find_recent_screenshots_spec 2 "~/Desktop".data (some demoDesktop)).2.2
    demoDesktop
    ["Bildschirmfoto 2025.png".data, "Screenshot 2025-10-05.png".data]
    rfl rfl
